import Mathlib

/-!
# Verification of the sketchatone strummer (shallow embedding)

This file embeds, in Lean 4, the parts of the `sketchatone` Python code base
that the specification's claims talk about:

* `sketchatone/models/note.py` — `NoteObject.transpose`, `Note.parse_notation`,
  `Note.parse_chord`, `Note.fill_note_spread`;
* `sketchatone/strummer/strummer.py` — the `Strummer` strum-detector state
  machine (`Strummer.strum`, `Strummer.clear_strum`);
* `sketchatone/models/parameter_mapping.py` — `ParameterMapping.map_value`;
* the config models (`midi_strummer_config.py`, `strummer_config.py`,
  `parameter_mapping.py`, `strummer_features.py`, `midi_config.py`,
  `server_config.py`) — `to_dict` / `from_dict`;
* `sketchatone/strummer/actions.py` — `Actions.execute` and its handlers.

Modelling conventions:

* Python `float` values are modelled as exact rationals (`ℚ`).  The numeric
  code under verification only adds, subtracts, multiplies, divides and
  truncates, so every divergence we exhibit between code and spec is a
  structural one (truncation versus rounding), not a float-precision artifact.
* Python `int(x)` on a float truncates toward zero: `pyInt`.
* Python `//` is floor division (`Int.fdiv`) and `%` follows the divisor's
  sign (`Int.fmod`).
* The Python field name `notation` is a Lean keyword, so the embedded
  `NoteObject` field is called `ntn` instead.
* Python dictionaries are modelled as association lists with distinct keys.
-/

/-- Python `int(q)` for a float `q`: truncation toward zero. -/
def pyInt (q : ℚ) : Int :=
  if 0 ≤ q then ⌊q⌋ else -⌊-q⌋

namespace Sketchatone

/-! ## Note model (`models/note.py`) -/

/-- `NoteObject`: a note with its name (Python field `notation`, here `ntn`
because `notation` is a Lean keyword), octave, and secondary flag. -/
structure NoteObject where
  ntn : String
  octave : Int
  secondary : Bool := false
deriving DecidableEq, Repr

/-- `Note.sharp_notations`. -/
def sharp_notations : List String :=
  ["C", "C#", "D", "D#", "E", "F"] ++ ["F#", "G", "G#", "A", "A#", "B"]

/-- `Note.flat_notations`. -/
def flat_notations : List String :=
  ["C", "Db", "D", "Eb", "E", "F"] ++ ["Gb", "G", "Ab", "A", "Bb", "B"]

/-- Python `list.index` wrapped in an option: `some i` for the first index
holding `s`, `none` when `s` is absent (the `ValueError` case). -/
def idxOf : List String → String → Option Nat
  | [], _ => none
  | a :: as, s => if a = s then some 0 else (idxOf as s).map (· + 1)

/-- Index resolution used by `NoteObject.transpose` and `to_midi`: try the
sharp table, then the flat table, then fall back to 0. -/
def noteIndexOf (s : String) : Nat :=
  match idxOf sharp_notations s with
  | some i => i
  | none =>
    match idxOf flat_notations s with
    | some i => i
    | none => 0

/-- `Note.index_of_notation`: sharp table, then flat table, then `-1`. -/
def index_of_ntn (s : String) : Int :=
  match idxOf sharp_notations s with
  | some i => (i : Int)
  | none =>
    match idxOf flat_notations s with
    | some i => (i : Int)
    | none => -1

/-- `NoteObject.transpose(semitones)` translated from `models/note.py`. -/
def NoteObject.transpose (n : NoteObject) (semitones : Int) : NoteObject :=
  if semitones = 0 then n
  else
    let note_index : Int := (noteIndexOf n.ntn : Int)
    let midi_number := n.octave * 12 + note_index
    let transposed_midi := midi_number + semitones
    let new_octave := transposed_midi.fdiv 12
    let new_note_index := (transposed_midi.fmod 12).toNat
    let new_ntn :=
      if n.ntn.data.contains '#' then sharp_notations.getD new_note_index ""
      else if n.ntn.data.contains 'b' then flat_notations.getD new_note_index ""
      else sharp_notations.getD new_note_index ""
    { ntn := new_ntn, octave := new_octave, secondary := n.secondary }

/-- Default note used to keep list indexing total; the theorems' hypotheses
guarantee it is never produced (Python would raise `IndexError` instead). -/
def noteDefault : NoteObject := { ntn := "", octave := 0, secondary := false }

/-- `Note.fill_note_spread(notes, lower_spread, upper_spread)`.  The spread
counts are Python ints; `range(n)` for `n ≤ 0` is empty, hence `Int.toNat`. -/
def fill_note_spread (notes : List NoteObject) (lower_spread upper_spread : Int) :
    List NoteObject :=
  if notes = [] then []
  else
    let upper := (List.range upper_spread.toNat).map (fun c =>
      let note_index := c % notes.length
      let octave_increase := c / notes.length
      let base := notes.getD note_index noteDefault
      { ntn := base.ntn
        octave := base.octave + octave_increase + 1
        secondary := true : NoteObject })
    let lower := (List.range lower_spread.toNat).map (fun c =>
      let note_index := c % notes.length
      let octave_decrease := c / notes.length
      let reverse_index := notes.length - 1 - note_index
      let base := notes.getD reverse_index noteDefault
      { ntn := base.ntn
        octave := base.octave - octave_decrease - 1
        secondary := true : NoteObject })
    lower ++ notes ++ upper

/-- `Note.parse_notation`: split a string such as `"C#4"` into name and octave.
`none` models the `IndexError` Python raises on the empty string. -/
def parse_ntn (s : String) : Option NoteObject :=
  match s.data.getLast? with
  | none => none
  | some octave_char =>
    if octave_char.isDigit then
      let octave : Int := ((octave_char.toNat - '0'.toNat : Nat) : Int)
      let nn := if s.data.length = 3 then String.mk (s.data.take 2)
        else String.mk (s.data.take 1)
      some { ntn := nn, octave := octave }
    else
      some { ntn := s, octave := 4 }

/-- `Note.chord_intervals` (semitones from root). -/
def chord_intervals : List (String × List Nat) :=
  [("maj", [0, 4, 7]), ("min", [0, 3, 7]), ("m", [0, 3, 7]),
   ("dim", [0, 3, 6]), ("aug", [0, 4, 8]), ("sus2", [0, 2, 7]),
   ("sus4", [0, 5, 7]), ("5", [0, 7]),
   ("7", [0, 4, 7, 10]), ("maj7", [0, 4, 7, 11]), ("min7", [0, 3, 7, 10]),
   ("m7", [0, 3, 7, 10]), ("dim7", [0, 3, 6, 9]), ("aug7", [0, 4, 8, 10]),
   ("maj9", [0, 4, 7, 11, 14]), ("min9", [0, 3, 7, 10, 14]),
   ("m9", [0, 3, 7, 10, 14]), ("9", [0, 4, 7, 10, 14]),
   ("add9", [0, 4, 7, 14]), ("6", [0, 4, 7, 9]), ("min6", [0, 3, 7, 9]),
   ("m6", [0, 3, 7, 9])]

/-- `Note.parse_chord(chord_notation, octave)`.  `none` models the
`IndexError` raised on an empty chord string. -/
def parse_chord (s : String) (octave : Int) : Option (List NoteObject) :=
  match s.data with
  | [] => none
  | c0 :: rest =>
    let sharp_or_flat := s.data.length ≥ 2 ∧
      (s.data.getD 1 ' ' = '#' ∨ s.data.getD 1 ' ' = 'b')
    let root : String :=
      if sharp_or_flat then String.mk (s.data.take 2) else String.mk [c0]
    let chord_type : String :=
      if sharp_or_flat then String.mk (s.data.drop 2) else String.mk rest
    let chord_type := if chord_type = "" then "maj" else chord_type
    let intervals := (chord_intervals.lookup chord_type).getD [0, 4, 7]
    match parse_ntn (root ++ toString octave) with
    | none => none
    | some root_note =>
      let root_index := index_of_ntn root_note.ntn
      some (intervals.map (fun interval =>
        let note_index := ((root_index + (interval : Int)).fmod 12).toNat
        let note_octave := octave + (root_index + (interval : Int)).fdiv 12
        { ntn := sharp_notations.getD note_index "", octave := note_octave }))

/-! ## Strum detector (`strummer/strummer.py`)

The `Strummer` object's mutable fields form the state; `time.time()` is an
input of each call (it only feeds timestamps and `pressure_velocity`, never
the branching).  The `_height` field is never read by `strum` and is omitted.
Python list indexing (`notes[i]`, with negative-index wrap-around) is kept
total with `listGetD`; the theorems' hypotheses keep indices in range, where
`listGetD` agrees with Python. -/

/-- Result payload of `Strummer.strum`: a strum (list of note/velocity
pairs) or a release carrying the stored velocity. -/
inductive StrumEvent
  | strum (notes : List (NoteObject × Int))
  | release (velocity : Int)
deriving DecidableEq, Repr

/-- The mutable state of a `Strummer` instance (fields of `__init__`). -/
structure SState where
  width : ℚ
  notes : List NoteObject
  last_x : ℚ
  last_strummed_index : Int
  last_pressure : ℚ
  last_timestamp : ℚ
  pressure_velocity : ℚ
  pressure_threshold : ℚ
  velocity_scale : ℚ
  last_strum_velocity : Int
  pressure_buffer : List (ℚ × ℚ)
  buffer_max_samples : Nat
  pending_tap_index : Int
deriving DecidableEq, Repr

/-- Python `lst[i]` on a note list: wraps negative indices; out-of-range
(an `IndexError` in Python) yields `noteDefault`, a case the theorems'
hypotheses exclude. -/
def listGetD (l : List NoteObject) (i : Int) : NoteObject :=
  if 0 ≤ i then l.getD i.toNat noteDefault
  else l.getD (i + l.length).toNat noteDefault

/-- The state after `Strummer.__init__()`, then `update_bounds(width, h)`,
`configure(4.0, threshold)` and the `notes` setter — i.e. a freshly
configured detector. -/
def initState (notes : List NoteObject) (width threshold : ℚ) : SState :=
  { width := width
    notes := notes
    last_x := -1
    last_strummed_index := -1
    last_pressure := 0
    last_timestamp := 0
    pressure_velocity := 0
    pressure_threshold := threshold
    velocity_scale := 4
    last_strum_velocity := 0
    pressure_buffer := []
    buffer_max_samples := 3
    pending_tap_index := -1 }

/-- The pressure-release branch of `Strummer.strum` (lines 108–125): reset
the detector and report the stored velocity if there was a strum. -/
def strumRelease (s0 : SState) (pressure t : ℚ) : SState × Option StrumEvent :=
  let release_velocity := s0.last_strum_velocity
  let s1 := { s0 with
    last_strummed_index := -1
    last_pressure := pressure
    last_timestamp := t
    pressure_velocity := 0
    pressure_buffer := []
    pending_tap_index := -1
    last_strum_velocity := 0 }
  (s1, if release_velocity > 0 then some (.release release_velocity) else none)

/-- The two buffer-starting branches of `Strummer.strum` (lines 128–147):
record the pending tap and the initial buffer contents. -/
def strumBufferStart (s0 : SState) (index : Int) (x pressure t : ℚ)
    (buf : List (ℚ × ℚ)) : SState × Option StrumEvent :=
  ({ s0 with
    pressure_buffer := buf
    pending_tap_index := index
    last_x := x
    last_pressure := pressure
    last_timestamp := t }, none)

/-- The continue-buffering branch of `Strummer.strum` (lines 150–182):
append the sample and trigger the initial-tap strum when the buffer fills. -/
def strumBufferContinue (s0 : SState) (x pressure t : ℚ) : SState × Option StrumEvent :=
  let buf := s0.pressure_buffer ++ [(pressure, t)]
  let s1 := { s0 with
    pressure_buffer := buf
    last_x := x
    last_pressure := pressure
    last_timestamp := t }
  if buf.length ≥ s0.buffer_max_samples then
    let current_pressure := pressure
    let normalized := max 0 (min 1
      ((current_pressure - s0.pressure_threshold) / (1 - s0.pressure_threshold)))
    let midi_velocity := max 20 (min 127 (pyInt (20 + normalized * 107)))
    let note := listGetD s0.notes s0.pending_tap_index
    ({ s1 with
      last_strum_velocity := midi_velocity
      last_strummed_index := s0.pending_tap_index
      pending_tap_index := -1
      pressure_buffer := [] }, some (.strum [(note, midi_velocity)]))
  else (s1, none)

/-- The string-crossing branch of `Strummer.strum` (lines 189–214): play all
strings after the previous index up to and including the new one. -/
def strumCross (s1 : SState) (index : Int) (pressure : ℚ) : SState × Option StrumEvent :=
  let midi_velocity := max 20 (pyInt (pressure * 127))
  let indices : List Int :=
    if s1.last_strummed_index < index then
      (List.range (index - s1.last_strummed_index).toNat).map
        (fun k : Nat => s1.last_strummed_index + 1 + (k : Int))
    else
      (List.range (s1.last_strummed_index - index).toNat).map
        (fun k : Nat => s1.last_strummed_index - 1 - (k : Int))
  let notes_to_play := indices.map (fun i => (listGetD s1.notes i, midi_velocity))
  ({ s1 with last_strum_velocity := midi_velocity, last_strummed_index := index },
    if notes_to_play = [] then none else some (.strum notes_to_play))

/-- `Strummer.strum(x, pressure)` translated from `strummer/strummer.py`;
`t` is the value of `time.time()` during the call.  Returns the updated
state and the optional event. -/
def strumStep (s : SState) (x pressure t : ℚ) : SState × Option StrumEvent :=
  if s.notes.length > 0 then
    let string_width := s.width / (s.notes.length : ℚ)
    let index : Int := min (pyInt (x / string_width)) ((s.notes.length : Int) - 1)
    let time_delta := if s.last_timestamp > 0 then t - s.last_timestamp else 1/1000
    let pv := if time_delta > 0 then (pressure - s.last_pressure) / time_delta else 0
    let s0 := { s with pressure_velocity := pv }
    if s.last_pressure ≥ s.pressure_threshold ∧ pressure < s.pressure_threshold then
      strumRelease s0 pressure t
    else if (s.last_pressure < s.pressure_threshold ∧ pressure ≥ s.pressure_threshold) ∧
        (s.last_strummed_index = -1 ∨ s.last_strummed_index ≠ index) then
      strumBufferStart s0 index x pressure t
        [(s.last_pressure, s.last_timestamp), (pressure, t)]
    else if pressure ≥ s.pressure_threshold ∧ s.last_strummed_index = -1 ∧
        s.pending_tap_index = -1 then
      strumBufferStart s0 index x pressure t [(pressure, t)]
    else if s.pending_tap_index ≠ -1 ∧ s.pressure_buffer.length < s.buffer_max_samples then
      strumBufferContinue s0 x pressure t
    else
      let s1 := { s0 with last_x := x, last_pressure := pressure, last_timestamp := t }
      if pressure ≥ s.pressure_threshold ∧ s.last_strummed_index ≠ -1 ∧
          s.last_strummed_index ≠ index then
        strumCross s1 index pressure
      else (s1, none)
  else (s, none)

/-- `Strummer.clear_strum()`. -/
def clearStrum (s : SState) : SState :=
  { s with
    last_strummed_index := -1
    last_pressure := 0
    last_timestamp := 0
    pressure_velocity := 0
    last_strum_velocity := 0
    pressure_buffer := []
    pending_tap_index := -1 }

/-- States of a configured detector reachable through `strum` and
`clear_strum` calls. -/
inductive Reachable : SState → Prop
  | init (notes : List NoteObject) (width threshold : ℚ) :
      Reachable (initState notes width threshold)
  | step (s : SState) (x p t : ℚ) : Reachable s → Reachable (strumStep s x p t).1
  | clear (s : SState) : Reachable s → Reachable (clearStrum s)

/-- The detector invariant: a pending tap implies a short buffer, an idle
previous strum, and held pressure; a recorded strum implies held pressure. -/
def StrumInv (s : SState) : Prop :=
  s.buffer_max_samples = 3 ∧
  (s.pending_tap_index ≠ -1 →
    s.pressure_buffer.length < 3 ∧ s.last_strummed_index = -1 ∧
    s.last_pressure ≥ s.pressure_threshold) ∧
  (s.last_strummed_index ≠ -1 → s.last_pressure ≥ s.pressure_threshold)

/-! ### The spec's S1/S2 walkthrough states

Notes `[C4, E4, G4]`, width 1, threshold 0.1; frames at pressure 0.5.
After two frames the initial tap on string 1 (E4) has completed
(`last_strummed_index = 1`), matching the spec's S1 scenario. -/

/-- Freshly configured detector of the spec's walkthrough. -/
def scenarioInit : SState :=
  initState [{ ntn := "C", octave := 4 }, { ntn := "E", octave := 4 },
             { ntn := "G", octave := 4 }] 1 (1/10)

/-- After frame `(0.5, 0.5)`: buffering started on string 1. -/
def scenarioTap1 : SState := (strumStep scenarioInit (1/2) (1/2) 1).1

/-- After a second frame `(0.5, 0.5)`: the tap on E4 triggered
(`last_strummed_index = 1`). -/
def scenarioTap2 : SState := (strumStep scenarioTap1 (1/2) (1/2) 2).1

/-! ## Parameter mapping (`models/parameter_mapping.py`) -/

/-- Python float `x ** c`, as an optional rational.  It is exact at a zero
base (`0.0 ** c` is `1.0` for `c = 0`, `0.0` for `c > 0`, and a
`ZeroDivisionError`, modelled as `none`, for `c < 0`) and at integer
exponents; a power at a non-integer exponent is generally irrational (or a
`ValueError` for a negative base) and no theorem below evaluates one, so it
is also mapped to `none`. -/
def powPy (x c : ℚ) : Option ℚ :=
  if x = 0 then
    if c = 0 then some 1 else if 0 < c then some 0 else none
  else if c.den = 1 then some (x ^ c.num)
  else none

/-- `ParameterMapping`: the dataclass fields (spread and control as their
literal Python strings). -/
structure ParameterMapping where
  min : ℚ := 0
  max : ℚ := 1
  multiplier : ℚ := 1
  curve : ℚ := 1
  spread : String := "direct"
  control : String := "none"
  default : ℚ := 1/2
deriving DecidableEq, Repr

/-- `ParameterMapping.map_value(input_value)` translated from
`models/parameter_mapping.py`; `none` propagates the undefined power
cases of `powPy`. -/
def ParameterMapping.map_value (m : ParameterMapping) (input_value : ℚ) : Option ℚ :=
  if m.control = "none" then some (m.default * m.multiplier)
  else
    let value := Max.max 0 (Min.min 1 input_value)
    let value := if m.spread = "inverse" then 1 - value
      else if m.spread = "central" then (value - 1/2) * 2 else value
    let curved : Option ℚ :=
      if m.curve ≠ 1 then
        if m.spread = "central" then
          let sign : ℚ := if 0 ≤ value then 1 else -1
          (powPy |value| m.curve).map (fun r => sign * r)
        else powPy value m.curve
      else some value
    curved.map (fun v =>
      let output := if m.spread = "central" then
          (m.min + m.max) / 2 + v * ((m.max - m.min) / 2)
        else m.min + v * (m.max - m.min)
      output * m.multiplier)

/-! ## Python values and config serialization

`PyVal` models the Python values that appear in config dictionaries; a dict
is an association list with distinct keys.  The config dataclasses are
modelled with `PyVal` fields exactly because Python's `from_dict`
constructors store whatever value the dictionary holds, without type
checks. -/

/-- A Python value as found in config dictionaries. -/
inductive PyVal where
  | none
  | bool (b : Bool)
  | int (n : Int)
  | float (q : ℚ)
  | str (s : String)
  | list (l : List PyVal)
  | dict (entries : List (String × PyVal))

/-- Dictionary lookup (`k in d` / `d[k]`): first entry with key `k`. -/
def dget : List (String × PyVal) → String → Option PyVal
  | [], _ => Option.none
  | (k', v) :: rest, k => if k' = k then some v else dget rest k

/-- Python `d.get(k, dflt)`. -/
def dgetD (d : List (String × PyVal)) (k : String) (dflt : PyVal) : PyVal :=
  (dget d k).getD dflt

/-- Python `d.get(k1, d.get(k2, dflt))` — the snake_case/camelCase fallback
chain used throughout the config models. -/
def dget2 (d : List (String × PyVal)) (k1 k2 : String) (dflt : PyVal) : PyVal :=
  match dget d k1 with
  | some v => v
  | Option.none => dgetD d k2 dflt

/-- Python truthiness of a `PyVal`. -/
def pyTruthy : PyVal → Bool
  | .none => false
  | .bool b => b
  | .int n => n != 0
  | .float q => decide (q ≠ 0)
  | .str s => s != ""
  | .list l => !l.isEmpty
  | .dict d => !d.isEmpty

/-- The Python `is None` identity test. -/
def isNoneV : PyVal → Bool
  | .none => true
  | _ => false

/-- `isinstance(v, dict)`. -/
def isDictV : PyVal → Bool
  | .dict _ => true
  | _ => false

/-- View a `PyVal` as a dictionary.  Python would raise on a non-dict where
this returns `[]`; every use below receives a dict. -/
def asDict : PyVal → List (String × PyVal)
  | .dict l => l
  | _ => []

namespace Ser

/-- `ParameterMapping` dataclass, serialization view (`PyVal` fields). -/
structure ParameterMapping where
  min : PyVal
  max : PyVal
  multiplier : PyVal
  curve : PyVal
  spread : PyVal
  control : PyVal
  default : PyVal


/-- `ParameterMapping.from_dict`. -/
def ParameterMapping.from_dict (d : List (String × PyVal)) : ParameterMapping where
  min := dgetD d "min" (.float 0)
  max := dgetD d "max" (.float 1)
  multiplier := dgetD d "multiplier" (.float 1)
  curve := dgetD d "curve" (.float 1)
  spread := dgetD d "spread" (.str "direct")
  control := dgetD d "control" (.str "none")
  default := dgetD d "default" (.float (1/2))

/-- `ParameterMapping.to_dict`. -/
def ParameterMapping.to_dict (m : ParameterMapping) : List (String × PyVal) :=
  [("min", m.min), ("max", m.max), ("multiplier", m.multiplier),
   ("curve", m.curve), ("spread", m.spread), ("control", m.control),
   ("default", m.default)]

/-- `default_note_duration()`. -/
def default_note_duration : ParameterMapping :=
  ⟨.float (15/100), .float (3/2), .float 1, .float 1, .str "inverse",
   .str "tiltXY", .float 1⟩

/-- `default_pitch_bend()`. -/
def default_pitch_bend : ParameterMapping :=
  ⟨.float (-1), .float 1, .float 1, .float 4, .str "central", .str "yaxis",
   .float 0⟩

/-- `default_note_velocity()` (`min`/`max`/`default` are Python ints). -/
def default_note_velocity : ParameterMapping :=
  ⟨.int 0, .int 127, .float 1, .float 4, .str "direct", .str "pressure",
   .int 64⟩

/-- `StrummingConfig` dataclass. -/
structure StrummingConfig where
  pluck_velocity_scale : PyVal
  pressure_threshold : PyVal
  midi_channel : PyVal
  initial_notes : PyVal
  chord : PyVal
  upper_note_spread : PyVal
  lower_note_spread : PyVal


/-- `StrummingConfig()` defaults. -/
def StrummingConfig.defaults : StrummingConfig :=
  ⟨.float 4, .float (1/10), .none, .list [.str "C4", .str "E4", .str "G4"],
   .none, .int 3, .int 3⟩

/-- `StrummingConfig.from_dict`. -/
def StrummingConfig.from_dict (d : List (String × PyVal)) : StrummingConfig where
  pluck_velocity_scale := dget2 d "pluck_velocity_scale" "pluckVelocityScale" (.float 4)
  pressure_threshold := dget2 d "pressure_threshold" "pressureThreshold" (.float (1/10))
  midi_channel := dget2 d "midi_channel" "midiChannel" .none
  initial_notes := dget2 d "initial_notes" "initialNotes"
    (.list [.str "C4", .str "E4", .str "G4"])
  chord := dgetD d "chord" .none
  upper_note_spread := dget2 d "upper_note_spread" "upperNoteSpread" (.int 3)
  lower_note_spread := dget2 d "lower_note_spread" "lowerNoteSpread" (.int 3)

/-- `StrummingConfig.to_dict`. -/
def StrummingConfig.to_dict (c : StrummingConfig) : List (String × PyVal) :=
  [("pluck_velocity_scale", c.pluck_velocity_scale),
   ("pressure_threshold", c.pressure_threshold),
   ("midi_channel", c.midi_channel),
   ("initial_notes", c.initial_notes),
   ("chord", c.chord),
   ("upper_note_spread", c.upper_note_spread),
   ("lower_note_spread", c.lower_note_spread)]

/-- `NoteRepeaterConfig` dataclass. -/
structure NoteRepeaterConfig where
  active : PyVal
  pressure_multiplier : PyVal
  frequency_multiplier : PyVal


/-- `NoteRepeaterConfig()` defaults. -/
def NoteRepeaterConfig.defaults : NoteRepeaterConfig :=
  ⟨.bool false, .float 1, .float 1⟩

/-- `NoteRepeaterConfig.from_dict`. -/
def NoteRepeaterConfig.from_dict (d : List (String × PyVal)) : NoteRepeaterConfig where
  active := dgetD d "active" (.bool false)
  pressure_multiplier := dget2 d "pressure_multiplier" "pressureMultiplier" (.float 1)
  frequency_multiplier := dget2 d "frequency_multiplier" "frequencyMultiplier" (.float 1)

/-- `NoteRepeaterConfig.to_dict` (camelCase). -/
def NoteRepeaterConfig.to_dict (c : NoteRepeaterConfig) : List (String × PyVal) :=
  [("active", c.active),
   ("pressureMultiplier", c.pressure_multiplier),
   ("frequencyMultiplier", c.frequency_multiplier)]

/-- `TransposeConfig` dataclass. -/
structure TransposeConfig where
  active : PyVal
  semitones : PyVal


/-- `TransposeConfig()` defaults. -/
def TransposeConfig.defaults : TransposeConfig := ⟨.bool false, .int 12⟩

/-- `TransposeConfig.from_dict`. -/
def TransposeConfig.from_dict (d : List (String × PyVal)) : TransposeConfig where
  active := dgetD d "active" (.bool false)
  semitones := dgetD d "semitones" (.int 12)

/-- `TransposeConfig.to_dict`. -/
def TransposeConfig.to_dict (c : TransposeConfig) : List (String × PyVal) :=
  [("active", c.active), ("semitones", c.semitones)]

/-- `StylusButtonsConfig` dataclass. -/
structure StylusButtonsConfig where
  active : PyVal
  primary_button_action : PyVal
  secondary_button_action : PyVal


/-- `StylusButtonsConfig()` defaults. -/
def StylusButtonsConfig.defaults : StylusButtonsConfig :=
  ⟨.bool true, .str "toggle-transpose", .str "toggle-repeater"⟩

/-- `StylusButtonsConfig.from_dict`. -/
def StylusButtonsConfig.from_dict (d : List (String × PyVal)) : StylusButtonsConfig where
  active := dgetD d "active" (.bool true)
  primary_button_action := dget2 d "primary_button_action" "primaryButtonAction"
    (.str "toggle-transpose")
  secondary_button_action := dget2 d "secondary_button_action" "secondaryButtonAction"
    (.str "toggle-repeater")

/-- `StylusButtonsConfig.to_dict` (camelCase). -/
def StylusButtonsConfig.to_dict (c : StylusButtonsConfig) : List (String × PyVal) :=
  [("active", c.active),
   ("primaryButtonAction", c.primary_button_action),
   ("secondaryButtonAction", c.secondary_button_action)]

/-- `StrumReleaseConfig` dataclass. -/
structure StrumReleaseConfig where
  active : PyVal
  midi_note : PyVal
  midi_channel : PyVal
  max_duration : PyVal
  velocity_multiplier : PyVal


/-- `StrumReleaseConfig()` defaults. -/
def StrumReleaseConfig.defaults : StrumReleaseConfig :=
  ⟨.bool false, .int 38, .none, .float (1/4), .float 1⟩

/-- `StrumReleaseConfig.from_dict`. -/
def StrumReleaseConfig.from_dict (d : List (String × PyVal)) : StrumReleaseConfig where
  active := dgetD d "active" (.bool false)
  midi_note := dget2 d "midi_note" "midiNote" (.int 38)
  midi_channel := dget2 d "midi_channel" "midiChannel" .none
  max_duration := dget2 d "max_duration" "maxDuration" (.float (1/4))
  velocity_multiplier := dget2 d "velocity_multiplier" "velocityMultiplier" (.float 1)

/-- `StrumReleaseConfig.to_dict` (camelCase). -/
def StrumReleaseConfig.to_dict (c : StrumReleaseConfig) : List (String × PyVal) :=
  [("active", c.active),
   ("midiNote", c.midi_note),
   ("midiChannel", c.midi_channel),
   ("maxDuration", c.max_duration),
   ("velocityMultiplier", c.velocity_multiplier)]

/-- `StrummerConfig` dataclass. -/
structure StrummerConfig where
  note_duration : ParameterMapping
  pitch_bend : ParameterMapping
  note_velocity : ParameterMapping
  strumming : StrummingConfig
  note_repeater : NoteRepeaterConfig
  transpose : TransposeConfig
  stylus_buttons : StylusButtonsConfig
  strum_release : StrumReleaseConfig


/-- `StrummerConfig()` defaults. -/
def StrummerConfig.defaults : StrummerConfig :=
  ⟨default_note_duration, default_pitch_bend, default_note_velocity,
   StrummingConfig.defaults, NoteRepeaterConfig.defaults,
   TransposeConfig.defaults, StylusButtonsConfig.defaults,
   StrumReleaseConfig.defaults⟩

/-- `StrummerConfig.from_dict`. -/
def StrummerConfig.from_dict (d : List (String × PyVal)) : StrummerConfig :=
  let note_duration_data := dget2 d "note_duration" "noteDuration" (.dict [])
  let pitch_bend_data := dget2 d "pitch_bend" "pitchBend" (.dict [])
  let note_velocity_data := dget2 d "note_velocity" "noteVelocity" (.dict [])
  let strumming_data := dgetD d "strumming" (.dict [])
  let note_repeater_data := dget2 d "note_repeater" "noteRepeater" (.dict [])
  let transpose_data := dgetD d "transpose" (.dict [])
  let stylus_buttons_data := dget2 d "stylus_buttons" "stylusButtons" (.dict [])
  let strum_release_data := dget2 d "strum_release" "strumRelease" (.dict [])
  { note_duration := if pyTruthy note_duration_data then
      ParameterMapping.from_dict (asDict note_duration_data) else default_note_duration
    pitch_bend := if pyTruthy pitch_bend_data then
      ParameterMapping.from_dict (asDict pitch_bend_data) else default_pitch_bend
    note_velocity := if pyTruthy note_velocity_data then
      ParameterMapping.from_dict (asDict note_velocity_data) else default_note_velocity
    strumming := if pyTruthy strumming_data then
      StrummingConfig.from_dict (asDict strumming_data) else StrummingConfig.defaults
    note_repeater := if pyTruthy note_repeater_data then
      NoteRepeaterConfig.from_dict (asDict note_repeater_data) else NoteRepeaterConfig.defaults
    transpose := if pyTruthy transpose_data then
      TransposeConfig.from_dict (asDict transpose_data) else TransposeConfig.defaults
    stylus_buttons := if pyTruthy stylus_buttons_data then
      StylusButtonsConfig.from_dict (asDict stylus_buttons_data) else StylusButtonsConfig.defaults
    strum_release := if pyTruthy strum_release_data then
      StrumReleaseConfig.from_dict (asDict strum_release_data) else StrumReleaseConfig.defaults }

/-- `StrummerConfig.to_dict`. -/
def StrummerConfig.to_dict (c : StrummerConfig) : List (String × PyVal) :=
  [("note_duration", .dict c.note_duration.to_dict),
   ("pitch_bend", .dict c.pitch_bend.to_dict),
   ("note_velocity", .dict c.note_velocity.to_dict),
   ("strumming", .dict c.strumming.to_dict),
   ("note_repeater", .dict c.note_repeater.to_dict),
   ("transpose", .dict c.transpose.to_dict),
   ("stylus_buttons", .dict c.stylus_buttons.to_dict),
   ("strum_release", .dict c.strum_release.to_dict)]

/-- `DEFAULT_MIDI_INPUT_EXCLUDE`. -/
def DEFAULT_MIDI_INPUT_EXCLUDE : PyVal :=
  .list [.str "sketchatone", .str "ZynMidiRouter", .str "zynseq",
    .str "zynsmf", .str "ttymidi", .str "Midi Through", .str ":out"]

/-- `MidiConfig` dataclass. -/
structure MidiConfig where
  midi_output_backend : PyVal
  midi_output_id : PyVal
  midi_input_id : PyVal
  midi_input_exclude : PyVal
  jack_client_name : PyVal
  jack_auto_connect : PyVal
  note_duration : PyVal


/-- `MidiConfig()` defaults. -/
def MidiConfig.defaults : MidiConfig :=
  ⟨.str "rtmidi", .none, .none, DEFAULT_MIDI_INPUT_EXCLUDE,
   .str "sketchatone", .str "chain0", .float (3/2)⟩

/-- `MidiConfig.from_dict`. -/
def MidiConfig.from_dict (d : List (String × PyVal)) : MidiConfig :=
  let exclude_list := dget2 d "midi_input_exclude" "midiInputExclude" .none
  let exclude_list := if isNoneV exclude_list then DEFAULT_MIDI_INPUT_EXCLUDE
    else exclude_list
  { midi_output_backend := dget2 d "midi_output_backend" "midiOutputBackend" (.str "rtmidi")
    midi_output_id := dget2 d "midi_output_id" "midiOutputId" .none
    midi_input_id := dget2 d "midi_input_id" "midiInputId" .none
    midi_input_exclude := exclude_list
    jack_client_name := dget2 d "jack_client_name" "jackClientName" (.str "sketchatone")
    jack_auto_connect := dget2 d "jack_auto_connect" "jackAutoConnect" (.str "chain0")
    note_duration := dget2 d "note_duration" "noteDuration" (.float (3/2)) }

/-- `MidiConfig.to_dict` (camelCase). -/
def MidiConfig.to_dict (c : MidiConfig) : List (String × PyVal) :=
  [("midiOutputBackend", c.midi_output_backend),
   ("midiOutputId", c.midi_output_id),
   ("midiInputId", c.midi_input_id),
   ("midiInputExclude", c.midi_input_exclude),
   ("jackClientName", c.jack_client_name),
   ("jackAutoConnect", c.jack_auto_connect),
   ("noteDuration", c.note_duration)]

/-- `ServerConfig` dataclass. -/
structure ServerConfig where
  device : PyVal
  http_port : PyVal
  ws_port : PyVal
  ws_message_throttle : PyVal
  device_finding_poll_interval : PyVal


/-- `ServerConfig()` defaults. -/
def ServerConfig.defaults : ServerConfig := ⟨.none, .none, .none, .int 150, .none⟩

/-- `ServerConfig.from_dict`. -/
def ServerConfig.from_dict (d : List (String × PyVal)) : ServerConfig where
  device := dgetD d "device" .none
  http_port := dget2 d "http_port" "httpPort" .none
  ws_port := dget2 d "ws_port" "wsPort" .none
  ws_message_throttle := dget2 d "ws_message_throttle" "wsMessageThrottle" (.int 150)
  device_finding_poll_interval :=
    dget2 d "device_finding_poll_interval" "deviceFindingPollInterval" .none

/-- `ServerConfig.to_dict` (camelCase). -/
def ServerConfig.to_dict (c : ServerConfig) : List (String × PyVal) :=
  [("device", c.device),
   ("httpPort", c.http_port),
   ("wsPort", c.ws_port),
   ("wsMessageThrottle", c.ws_message_throttle),
   ("deviceFindingPollInterval", c.device_finding_poll_interval)]

/-- `MidiStrummerConfig` dataclass. -/
structure MidiStrummerConfig where
  strummer : StrummerConfig
  midi : MidiConfig
  server : ServerConfig


/-- `MidiStrummerConfig()` defaults. -/
def MidiStrummerConfig.defaults : MidiStrummerConfig :=
  ⟨StrummerConfig.defaults, MidiConfig.defaults, ServerConfig.defaults⟩

/-- `MidiStrummerConfig.from_dict` (nested and flat formats). -/
def MidiStrummerConfig.from_dict (d : List (String × PyVal)) : MidiStrummerConfig :=
  let has_strummer_key :=
    match dget d "strummer" with
    | some v => isDictV v
    | Option.none => false
  let strummer_data := if has_strummer_key then dgetD d "strummer" (.dict [])
    else .dict (d.filter (fun kv => kv.1 != "midi" && kv.1 != "server"))
  let midi_data := dgetD d "midi" (.dict [])
  let server_data := dgetD d "server" (.dict [])
  { strummer := if pyTruthy strummer_data then
      StrummerConfig.from_dict (asDict strummer_data) else StrummerConfig.defaults
    midi := if pyTruthy midi_data then
      MidiConfig.from_dict (asDict midi_data) else MidiConfig.defaults
    server := if pyTruthy server_data then
      ServerConfig.from_dict (asDict server_data) else ServerConfig.defaults }

/-- `MidiStrummerConfig.to_dict` (nested format). -/
def MidiStrummerConfig.to_dict (c : MidiStrummerConfig) : List (String × PyVal) :=
  [("strummer", .dict c.strummer.to_dict),
   ("midi", .dict c.midi.to_dict),
   ("server", .dict c.server.to_dict)]

end Ser

/-! ## Action handlers (`strummer/actions.py`)

The model fixes the standard instantiation: `Actions(config, strummer)`
with a typed (attribute-style) config that has `note_repeater`, `transpose`,
`lower_spread` and `upper_spread` attributes, and an attached strummer.
Under this instantiation the `getattr`/dict-style fallbacks in the handlers
resolve to plain attribute access, which is what the model implements.
`context` only feeds log strings and is omitted; `register_action` (custom
handlers) is not modelled — the registry is the seven built-ins. -/
namespace Act

/-- The mutable state the seven built-in handlers read and write: the
config's repeater/transpose features and spreads, the strummer's note list,
and the `ChordProgressionState`. -/
structure ActionsState where
  note_repeater_active : Bool
  transpose_active : Bool
  transpose_semitones : Int
  lower_spread : Int
  upper_spread : Int
  strummer_notes : List NoteObject
  progression_name : Option String
  progression_chords : List String
  progression_index : Int
deriving DecidableEq, Repr

/-- `CHORD_PROGRESSION_PRESETS` from `models/strummer_features.py`. -/
def CHORD_PROGRESSION_PRESETS : List (String × List String) :=
  [("c-major-pop", ["C", "G", "Am", "F"]),
   ("c-major-50s", ["C", "Am", "F", "G"]),
   ("c-major-axis", ["Am", "F", "C", "G"]),
   ("c-major-royal", ["F", "C", "G", "Am"]),
   ("a-minor-pop", ["Am", "F", "C", "G"]),
   ("a-minor-andalusian", ["Am", "G", "F", "E"]),
   ("g-major-country", ["G", "C", "D", "G"]),
   ("d-major-folk", ["D", "G", "A", "D"]),
   ("e-minor-rock", ["Em", "C", "G", "D"]),
   ("blues-12bar", ["C7", "C7", "C7", "C7", "F7", "F7", "C7", "C7", "G7", "F7", "C7", "G7"])]

/-- Python `isinstance(v, (int, float))` (`bool` is a subclass of `int`). -/
def isNum : PyVal → Bool
  | .int _ => true
  | .float _ => true
  | .bool _ => true
  | _ => false

/-- Python `int(v)` for the numeric `PyVal`s accepted by `isNum`. -/
def pyValToInt : PyVal → Int
  | .int n => n
  | .float q => pyInt q
  | .bool b => if b then 1 else 0
  | _ => 0

/-- Python `isinstance(v, str)`. -/
def isStr : PyVal → Bool
  | .str _ => true
  | _ => false

/-- Python `isinstance(v, list)`. -/
def isList : PyVal → Bool
  | .list _ => true
  | _ => false

/-- `Actions.toggle_repeater`. -/
def toggle_repeater (st : ActionsState) (_params : List PyVal) : ActionsState :=
  { st with note_repeater_active := !st.note_repeater_active }

/-- `Actions.toggle_transpose`. -/
def toggle_transpose (st : ActionsState) (_params : List PyVal) : ActionsState :=
  { st with transpose_active := !st.transpose_active }

/-- `Actions.transpose`: toggle transpose with an explicit semitone count;
invalid parameters leave the state untouched. -/
def transpose_handler (st : ActionsState) (params : List PyVal) : ActionsState :=
  match params with
  | [] => st
  | v :: _ =>
    if ¬isNum v then st
    else
      let semitones := pyValToInt v
      if st.transpose_active ∧ st.transpose_semitones = semitones then
        { st with transpose_active := false, transpose_semitones := 0 }
      else
        { st with transpose_active := true, transpose_semitones := semitones }

/-- `Actions.set_strum_notes`: parse the given note strings and install the
spread note list on the strummer; any validation failure or parse error
(a caught exception in Python) leaves the state untouched. -/
def set_strum_notes (st : ActionsState) (params : List PyVal) : ActionsState :=
  match params with
  | [] => st
  | v :: _ =>
    match v with
    | .list items =>
      match items.mapM (fun it => match it with
        | PyVal.str s => some s
        | _ => Option.none) with
      | Option.none => st
      | some note_strings =>
        if note_strings = [] then st
        else
          match note_strings.mapM parse_ntn with
          | Option.none => st
          | some notes =>
            { st with strummer_notes :=
                fill_note_spread notes st.lower_spread st.upper_spread }
    | _ => st

/-- `Actions.set_strum_chord`. -/
def set_strum_chord (st : ActionsState) (params : List PyVal) : ActionsState :=
  match params with
  | [] => st
  | v :: rest =>
    match v with
    | .str chord =>
      let octave : Int :=
        match rest with
        | w :: _ => if isNum w then pyValToInt w else 4
        | [] => 4
      match parse_chord chord octave with
      | Option.none => st
      | some notes =>
        if notes = [] then st
        else
          { st with strummer_notes :=
              fill_note_spread notes st.lower_spread st.upper_spread }
    | _ => st

/-- `ChordProgressionState.load_progression` folded into the caller: `none`
when the progression name is unknown (the handler then returns). -/
def loadProgression (st : ActionsState) (name : String) : Option ActionsState :=
  if st.progression_name ≠ some name then
    match CHORD_PROGRESSION_PRESETS.lookup name with
    | Option.none => Option.none
    | some chords =>
      some { st with
        progression_name := some name
        progression_chords := chords
        progression_index := 0 }
  else some st

/-- `ChordProgressionState.get_current_chord`. -/
def currentChord (st : ActionsState) : Option String :=
  if st.progression_chords ≠ [] ∧ 0 ≤ st.progression_index ∧
      st.progression_index < (st.progression_chords.length : Int) then
    some (st.progression_chords.getD st.progression_index.toNat "")
  else Option.none

/-- Common tail of the two progression handlers: read the current chord and
install it on the strummer. -/
def applyProgressionChord (st2 : ActionsState) (octave : Int) : ActionsState :=
  match currentChord st2 with
  | Option.none => st2
  | some chord =>
    if chord = "" then st2
    else
      match parse_chord chord octave with
      | Option.none => st2
      | some notes =>
        if notes = [] then st2
        else
          { st2 with strummer_notes :=
              fill_note_spread notes st2.lower_spread st2.upper_spread }

/-- `Actions.set_chord_in_progression`. -/
def set_chord_in_progression (st : ActionsState) (params : List PyVal) : ActionsState :=
  match params with
  | p0 :: p1 :: rest =>
    match p0 with
    | .str name =>
      if ¬isNum p1 then st
      else
        let index := pyValToInt p1
        let octave : Int :=
          match rest with
          | w :: _ => if isNum w then pyValToInt w else 4
          | [] => 4
        match loadProgression st name with
        | Option.none => st
        | some st1 =>
          let st2 := if st1.progression_chords ≠ [] then
              { st1 with progression_index :=
                  index.fmod (st1.progression_chords.length : Int) }
            else st1
          applyProgressionChord st2 octave
    | _ => st
  | _ => st

/-- `Actions.increment_chord_in_progression`. -/
def increment_chord_in_progression (st : ActionsState) (params : List PyVal) :
    ActionsState :=
  match params with
  | [] => st
  | p0 :: rest =>
    match p0 with
    | .str name =>
      let increment_amount : Int :=
        match rest with
        | w :: _ => if isNum w then pyValToInt w else 1
        | [] => 1
      let octave : Int :=
        match rest with
        | _ :: w :: _ => if isNum w then pyValToInt w else 4
        | _ => 4
      match loadProgression st name with
      | Option.none => st
      | some st1 =>
        let st2 := if st1.progression_chords ≠ [] then
            { st1 with
              progression_index := (st1.progression_index + increment_amount).fmod
                (st1.progression_chords.length : Int) }
          else st1
        applyProgressionChord st2 octave
    | _ => st

/-- The keys of `Actions._action_handlers` (its default registry). -/
def sevenActionNames : List String :=
  ["toggle-repeater", "toggle-transpose", "transpose", "set-strum-notes",
   "set-strum-chord", "set-chord-in-progression",
   "increment-chord-in-progression"]

/-- Dispatch on `Actions._action_handlers`; only called with a registered
name. -/
def runHandler (name : String) (st : ActionsState) (params : List PyVal) :
    ActionsState :=
  if name = "toggle-repeater" then toggle_repeater st params
  else if name = "toggle-transpose" then toggle_transpose st params
  else if name = "transpose" then transpose_handler st params
  else if name = "set-strum-notes" then set_strum_notes st params
  else if name = "set-strum-chord" then set_strum_chord st params
  else if name = "set-chord-in-progression" then set_chord_in_progression st params
  else if name = "increment-chord-in-progression" then
    increment_chord_in_progression st params
  else st

/-- `action_def is None or action_def == 'none' or action_def == ''` (Python
`==` between a string and a non-string is `False`). -/
def isNoActionDef (d : PyVal) : Bool :=
  match d with
  | .none => true
  | .str s => s == "none" || s == ""
  | _ => false

/-- `Actions.execute(action_def)`: the returned flag plus the state after
the handler (if any) ran. -/
def execute (st : ActionsState) (action_def : PyVal) : Bool × ActionsState :=
  if isNoActionDef action_def then (false, st)
  else
    match action_def with
    | .str s =>
      if s ∈ sevenActionNames then (true, runHandler s st []) else (false, st)
    | .list (h :: tail) =>
      match h with
      | .str s =>
        if s ∈ sevenActionNames then (true, runHandler s st tail) else (false, st)
      | _ => (false, st)
    | _ => (false, st)

/-- Whether an action definition's name resolves to a registered handler
(a string that is one of the seven built-in action names). -/
def registeredName : PyVal → Bool
  | .str s => decide (s ∈ sevenActionNames)
  | .list (h :: _) =>
    match h with
    | .str s => decide (s ∈ sevenActionNames)
    | _ => false
  | _ => false

/-- The claim's description of when `execute` returns `False`: the
definition is `None`, `'none'`, `''`, a non-string non-list value, an empty
list, or a definition whose name is not a registered handler. -/
def failSpec (d : PyVal) : Prop :=
  d = PyVal.none ∨ d = .str "none" ∨ d = .str "" ∨
  (isStr d = false ∧ isList d = false) ∨ d = .list [] ∨
  registeredName d = false

/-- A default `ActionsState`: default feature config (repeater off,
transpose off at 12 semitones, spreads 3) with no notes and no progression
loaded. -/
def actionsInit : ActionsState :=
  { note_repeater_active := false
    transpose_active := false
    transpose_semitones := 12
    lower_spread := 3
    upper_spread := 3
    strummer_notes := []
    progression_name := Option.none
    progression_chords := []
    progression_index := 0 }

end Act

/-! ## Helper lemmas: detector invariant -/

theorem inv_release (s0 : SState) (p t : ℚ) (hmax : s0.buffer_max_samples = 3) :
    StrumInv (strumRelease s0 p t).1 := by
  simp [StrumInv, strumRelease, hmax]

theorem inv_bufferStart (s0 : SState) (index : Int) (x p t : ℚ) (buf : List (ℚ × ℚ))
    (hmax : s0.buffer_max_samples = 3) (hb : buf.length < 3)
    (hstr : s0.last_strummed_index = -1) (hp : p ≥ s0.pressure_threshold) :
    StrumInv (strumBufferStart s0 index x p t buf).1 := by
  refine ⟨hmax, fun _ => ⟨hb, hstr, hp⟩, fun hne => ?_⟩
  · exact absurd hstr hne

theorem inv_bufferContinue (s0 : SState) (x p t : ℚ)
    (hmax : s0.buffer_max_samples = 3)
    (hstr0 : s0.last_strummed_index = -1) (hp : p ≥ s0.pressure_threshold) :
    StrumInv (strumBufferContinue s0 x p t).1 := by
  rw [strumBufferContinue]
  by_cases hfull : (s0.pressure_buffer ++ [(p, t)]).length ≥ s0.buffer_max_samples
  · simp only [if_pos hfull]
    exact ⟨hmax, by simp, fun _ => hp⟩
  · simp only [if_neg hfull]
    refine ⟨hmax, fun _ => ⟨?_, hstr0, hp⟩, fun hne => absurd hstr0 hne⟩
    show (s0.pressure_buffer ++ [(p, t)]).length < 3
    omega

theorem inv_cross (s1 : SState) (index : Int) (p : ℚ)
    (hmax : s1.buffer_max_samples = 3) (hpend : s1.pending_tap_index = -1)
    (hlp : s1.last_pressure ≥ s1.pressure_threshold) :
    StrumInv (strumCross s1 index p).1 := by
  exact ⟨hmax, fun hne => absurd hpend hne, fun _ => hlp⟩

/-- One `strum` call preserves the detector invariant. -/
theorem strumInv_step (s : SState) (h : StrumInv s) (x p t : ℚ) :
    StrumInv (strumStep s x p t).1 := by
  obtain ⟨hmax, hpend, hstr⟩ := h
  rw [strumStep]
  by_cases hn : s.notes.length > 0
  · simp only [if_pos hn]
    by_cases h1 : s.last_pressure ≥ s.pressure_threshold ∧ p < s.pressure_threshold
    · simp only [if_pos h1]
      exact inv_release _ _ _ hmax
    · simp only [if_neg h1]
      by_cases h2 : (s.last_pressure < s.pressure_threshold ∧ p ≥ s.pressure_threshold) ∧
          (s.last_strummed_index = -1 ∨ s.last_strummed_index ≠
            min (pyInt (x / (s.width / (s.notes.length : ℚ)))) ((s.notes.length : Int) - 1))
      · simp only [if_pos h2]
        refine inv_bufferStart _ _ _ _ _ _ hmax (by simp) ?_ h2.1.2
        by_contra hne
        exact absurd (hstr hne) (not_le.mpr h2.1.1)
      · simp only [if_neg h2]
        by_cases h3 : p ≥ s.pressure_threshold ∧ s.last_strummed_index = -1 ∧
            s.pending_tap_index = -1
        · simp only [if_pos h3]
          exact inv_bufferStart _ _ _ _ _ _ hmax (by simp) h3.2.1 h3.1
        · simp only [if_neg h3]
          by_cases h4 : s.pending_tap_index ≠ -1 ∧
              s.pressure_buffer.length < s.buffer_max_samples
          · simp only [if_pos h4]
            obtain ⟨hb, hs0, hlp⟩ := hpend h4.1
            refine inv_bufferContinue _ _ _ _ hmax hs0 ?_
            rcases not_and_or.mp h1 with h | h
            · exact absurd hlp h
            · exact not_lt.mp h
          · simp only [if_neg h4]
            have hpd : s.pending_tap_index = -1 := by
              by_contra hne
              obtain ⟨hb, _, _⟩ := hpend hne
              exact h4 ⟨hne, by omega⟩
            by_cases h5 : p ≥ s.pressure_threshold ∧ s.last_strummed_index ≠ -1 ∧
                s.last_strummed_index ≠
                  min (pyInt (x / (s.width / (s.notes.length : ℚ)))) ((s.notes.length : Int) - 1)
            · simp only [if_pos h5]
              exact inv_cross _ _ _ hmax hpd h5.1
            · simp only [if_neg h5]
              refine ⟨hmax, fun hne => absurd hpd hne, fun hne => ?_⟩
              rcases not_and_or.mp h1 with h | h
              · exact absurd (hstr hne) h
              · exact not_lt.mp h
  · simp only [if_neg hn]
    exact ⟨hmax, hpend, hstr⟩

/-- Every reachable detector state satisfies the invariant. -/
theorem strumInv_of_reachable {s : SState} (h : Reachable s) : StrumInv s := by
  induction h with
  | init notes width threshold =>
    refine ⟨rfl, fun hne => absurd rfl hne, fun hne => absurd rfl hne⟩
  | step s x p t _ ih => exact strumInv_step s ih x p t
  | clear s _ ih =>
    refine ⟨ih.1, fun hne => absurd rfl hne, fun hne => absurd rfl hne⟩

/-- A call that emits a release event resets the detector fields to their
initial values. -/
theorem release_resets (s : SState) (x p t : ℚ) (v : Int)
    (h : (strumStep s x p t).2 = some (.release v)) :
    (strumStep s x p t).1.pending_tap_index = -1 ∧
    (strumStep s x p t).1.pressure_buffer = [] ∧
    (strumStep s x p t).1.last_strummed_index = -1 ∧
    (strumStep s x p t).1.last_strum_velocity = 0 := by
  rw [strumStep] at h ⊢
  by_cases hn : s.notes.length > 0
  · simp only [if_pos hn] at h ⊢
    by_cases h1 : s.last_pressure ≥ s.pressure_threshold ∧ p < s.pressure_threshold
    · simp only [if_pos h1, strumRelease]
      exact ⟨trivial, trivial, trivial, trivial⟩
    · simp only [if_neg h1] at h ⊢
      by_cases h2 : (s.last_pressure < s.pressure_threshold ∧ p ≥ s.pressure_threshold) ∧
          (s.last_strummed_index = -1 ∨ s.last_strummed_index ≠
            min (pyInt (x / (s.width / (s.notes.length : ℚ)))) ((s.notes.length : Int) - 1))
      · simp only [if_pos h2, strumBufferStart] at h
        exact absurd h (by simp)
      · simp only [if_neg h2] at h ⊢
        by_cases h3 : p ≥ s.pressure_threshold ∧ s.last_strummed_index = -1 ∧
            s.pending_tap_index = -1
        · simp only [if_pos h3, strumBufferStart] at h
          exact absurd h (by simp)
        · simp only [if_neg h3] at h ⊢
          by_cases h4 : s.pending_tap_index ≠ -1 ∧
              s.pressure_buffer.length < s.buffer_max_samples
          · simp only [if_pos h4, strumBufferContinue] at h
            split at h <;> simp at h
          · simp only [if_neg h4] at h ⊢
            by_cases h5 : p ≥ s.pressure_threshold ∧ s.last_strummed_index ≠ -1 ∧
                s.last_strummed_index ≠
                  min (pyInt (x / (s.width / (s.notes.length : ℚ)))) ((s.notes.length : Int) - 1)
            · simp only [if_pos h5, strumCross] at h
              split at h <;> simp at h
            · simp only [if_neg h5] at h
              exact absurd h (by simp)
  · simp only [if_neg hn] at h
    exact absurd h (by simp)

/-- `scenarioTap1` in explicit form. -/
theorem scenarioTap1_eq : scenarioTap1 =
    { width := 1
      notes := [{ ntn := "C", octave := 4 }, { ntn := "E", octave := 4 },
                { ntn := "G", octave := 4 }]
      last_x := 1/2
      last_strummed_index := -1
      last_pressure := 1/2
      last_timestamp := 1
      pressure_velocity := 500
      pressure_threshold := 1/10
      velocity_scale := 4
      last_strum_velocity := 0
      pressure_buffer := [(0, 0), (1/2, 1)]
      buffer_max_samples := 3
      pending_tap_index := 1 } := by
  norm_num [scenarioTap1, scenarioInit, strumStep, strumRelease, strumBufferStart,
    strumBufferContinue, strumCross, initState, pyInt, listGetD]

/-- `scenarioTap2` in explicit form: the S1 tap on E4 has completed. -/
theorem scenarioTap2_eq : scenarioTap2 =
    { width := 1
      notes := [{ ntn := "C", octave := 4 }, { ntn := "E", octave := 4 },
                { ntn := "G", octave := 4 }]
      last_x := 1/2
      last_strummed_index := 1
      last_pressure := 1/2
      last_timestamp := 2
      pressure_velocity := 0
      pressure_threshold := 1/10
      velocity_scale := 4
      last_strum_velocity := 67
      pressure_buffer := []
      buffer_max_samples := 3
      pending_tap_index := -1 } := by
  rw [scenarioTap2, scenarioTap1_eq]
  norm_num [strumStep, strumRelease, strumBufferStart,
    strumBufferContinue, strumCross, pyInt, listGetD, List.range_succ]

/-! ## Claims C1–C4 -/

/-- C1 (amended): every note of a string-crossing strum burst carries MIDI
velocity `max(20, int(pressure · 127))` — Python `int`, i.e. truncation, not
rounding.  (With notes `[C4, E4, G4]`, `last_strummed_index = 1` and frame
`(0.95, 0.5)` the emitted strum is exactly `[{G4, 63}]`; see the witness.) -/
theorem claim_C1 (s : SState) (x p t : ℚ)
    (hn : s.notes.length > 0)
    (hlp : s.last_pressure ≥ s.pressure_threshold)
    (hp : p ≥ s.pressure_threshold)
    (hpend : s.pending_tap_index = -1)
    (hstr : s.last_strummed_index ≠ -1)
    (hidx : s.last_strummed_index ≠
      min (pyInt (x / (s.width / (s.notes.length : ℚ)))) ((s.notes.length : Int) - 1)) :
    ∃ l, (strumStep s x p t).2 = some (.strum l) ∧ l ≠ [] ∧
      ∀ nv ∈ l, nv.2 = max 20 (pyInt (p * 127)) := by
  rw [strumStep]
  have h1 : ¬(s.last_pressure ≥ s.pressure_threshold ∧ p < s.pressure_threshold) := by
    rintro ⟨_, hlt⟩; exact absurd hp (not_le.mpr hlt)
  have h2 : ¬((s.last_pressure < s.pressure_threshold ∧ p ≥ s.pressure_threshold) ∧
      (s.last_strummed_index = -1 ∨ s.last_strummed_index ≠
        min (pyInt (x / (s.width / (s.notes.length : ℚ)))) ((s.notes.length : Int) - 1))) := by
    rintro ⟨⟨hlt, _⟩, _⟩; exact absurd hlp (not_le.mpr hlt)
  have h3 : ¬(p ≥ s.pressure_threshold ∧ s.last_strummed_index = -1 ∧
      s.pending_tap_index = -1) := by
    rintro ⟨_, heq, _⟩; exact hstr heq
  have h4 : ¬(s.pending_tap_index ≠ -1 ∧
      s.pressure_buffer.length < s.buffer_max_samples) := by
    rintro ⟨hne, _⟩; exact hne hpend
  have h5 : p ≥ s.pressure_threshold ∧ s.last_strummed_index ≠ -1 ∧
      s.last_strummed_index ≠
        min (pyInt (x / (s.width / (s.notes.length : ℚ)))) ((s.notes.length : Int) - 1) :=
    ⟨hp, hstr, hidx⟩
  simp only [if_pos hn, if_neg h1, if_neg h2, if_neg h3, if_neg h4, if_pos h5]
  rw [strumCross]
  dsimp only
  set idx := min (pyInt (x / (s.width / (s.notes.length : ℚ)))) ((s.notes.length : Int) - 1)
    with hidxdef
  set v := max 20 (pyInt (p * 127)) with hv
  set inds := (if s.last_strummed_index < idx then
      (List.range (idx - s.last_strummed_index).toNat).map
        (fun k : Nat => s.last_strummed_index + 1 + (k : Int))
    else
      (List.range (s.last_strummed_index - idx).toNat).map
        (fun k : Nat => s.last_strummed_index - 1 - (k : Int))) with hinds
  have hne : inds ≠ [] := by
    rw [hinds]
    split
    · next hlt =>
      simp only [ne_eq, List.map_eq_nil_iff, List.range_eq_nil]
      omega
    · next hge =>
      simp only [ne_eq, List.map_eq_nil_iff, List.range_eq_nil]
      omega
  have hnp : inds.map (fun i => (listGetD s.notes i, v)) ≠ [] := by
    simpa using hne
  refine ⟨_, by rw [if_neg hnp], hnp, ?_⟩
  intro nv hnv
  obtain ⟨i, _, rfl⟩ := List.mem_map.mp hnv
  rfl

/-- C1 counterexample: from the spec's S1 state (`last_strummed_index = 1`),
the frame `(0.95, 0.5)` emits `[{G4, 63}]`, and `63` is not the claimed
`max(20, round(0.5 · 127)) = 64`. -/
theorem claim_C1_counterexample :
    scenarioTap2.last_strummed_index = 1 ∧
    (strumStep scenarioTap2 (19/20) (1/2) 3).2 =
      some (.strum [({ ntn := "G", octave := 4, secondary := false }, 63)]) ∧
    (63 : Int) ≠ max 20 (round ((1/2 : ℚ) * 127)) := by
  refine ⟨by rw [scenarioTap2_eq], ?_, by norm_num [round_eq]⟩
  rw [scenarioTap2_eq]
  norm_num [strumStep, strumRelease, strumBufferStart, strumBufferContinue,
    strumCross, pyInt, listGetD, List.range_succ]
  all_goals decide

/-- C1 witness: the amended claim applied at the S1 state with frame
`(0.95, 0.5)`. -/
theorem claim_C1_witness :
    scenarioTap2.notes.length > 0 ∧ scenarioTap2.last_strummed_index ≠ -1 ∧
    (∃ l, (strumStep scenarioTap2 (19/20) (1/2) 3).2 = some (.strum l) ∧ l ≠ [] ∧
      ∀ nv ∈ l, nv.2 = max 20 (pyInt ((1/2 : ℚ) * 127))) := by
  refine ⟨by rw [scenarioTap2_eq]; norm_num, by rw [scenarioTap2_eq]; norm_num,
    claim_C1 scenarioTap2 (19/20) (1/2) 3 ?_ ?_ ?_ ?_ ?_ ?_⟩ <;>
    rw [scenarioTap2_eq] <;> norm_num [pyInt]

/-- C2 (amended): the initial-tap strum fires when the third sample fills
the buffer, on the note at `pending_tap_index`, with velocity
`clamp(int(20 + normalized · 107), 20, 127)` — Python `int` truncation, not
rounding — where `normalized = clamp((p − threshold)/(1 − threshold), 0, 1)`
and `p` is the third (current) sample's pressure, not a running average. -/
theorem claim_C2 (s : SState) (x p t : ℚ)
    (hn : s.notes.length > 0)
    (hmax : s.buffer_max_samples = 3)
    (hpend : s.pending_tap_index ≠ -1)
    (hbuf : s.pressure_buffer.length = 2)
    (hlp : s.last_pressure ≥ s.pressure_threshold)
    (hp : p ≥ s.pressure_threshold) :
    (strumStep s x p t).2 = some (.strum [(listGetD s.notes s.pending_tap_index,
      max 20 (min 127 (pyInt (20 +
        (max 0 (min 1 ((p - s.pressure_threshold) / (1 - s.pressure_threshold)))) * 107))))]) := by
  rw [strumStep]
  have h1 : ¬(s.last_pressure ≥ s.pressure_threshold ∧ p < s.pressure_threshold) := by
    rintro ⟨_, hlt⟩; exact absurd hp (not_le.mpr hlt)
  have h2 : ¬((s.last_pressure < s.pressure_threshold ∧ p ≥ s.pressure_threshold) ∧
      (s.last_strummed_index = -1 ∨ s.last_strummed_index ≠
        min (pyInt (x / (s.width / (s.notes.length : ℚ)))) ((s.notes.length : Int) - 1))) := by
    rintro ⟨⟨hlt, _⟩, _⟩; exact absurd hlp (not_le.mpr hlt)
  have h3 : ¬(p ≥ s.pressure_threshold ∧ s.last_strummed_index = -1 ∧
      s.pending_tap_index = -1) := by
    rintro ⟨_, _, heq⟩; exact hpend heq
  have h4 : s.pending_tap_index ≠ -1 ∧
      s.pressure_buffer.length < s.buffer_max_samples := ⟨hpend, by omega⟩
  simp only [if_pos hn, if_neg h1, if_neg h2, if_neg h3, if_pos h4]
  rw [strumBufferContinue]
  have hfull : (s.pressure_buffer ++ [(p, t)]).length ≥ s.buffer_max_samples := by
    simp [hbuf, hmax]
  simp only [if_pos hfull]

/-- C2 counterexample: starting the tap at pressure 0.5 and completing the
buffer at third-sample pressure 0.3 (threshold 0.1) emits velocity 43 =
`int(20 + (2/9)·107)`, while the claimed `clamp(round(20 + (2/9)·107), 20,
127)` is 44. -/
theorem claim_C2_counterexample :
    (strumStep scenarioTap1 (1/2) (3/10) 2).2 =
      some (.strum [({ ntn := "E", octave := 4, secondary := false }, 43)]) ∧
    (43 : Int) ≠ max 20 (min 127 (round ((20 : ℚ) +
      (max 0 (min 1 ((3/10 - 1/10) / (1 - 1/10)))) * 107))) := by
  constructor
  · rw [scenarioTap1_eq]
    norm_num [strumStep, strumRelease, strumBufferStart, strumBufferContinue,
      strumCross, pyInt, listGetD, List.range_succ]
  · norm_num [round_eq]

/-- C2 witness: the amended claim applied at the buffering state
`scenarioTap1` with third-sample pressure 0.3. -/
theorem claim_C2_witness :
    scenarioTap1.pending_tap_index ≠ -1 ∧ scenarioTap1.pressure_buffer.length = 2 ∧
    (strumStep scenarioTap1 (1/2) (3/10) 2).2 =
      some (.strum [(listGetD scenarioTap1.notes scenarioTap1.pending_tap_index,
        max 20 (min 127 (pyInt (20 +
          (max 0 (min 1 (((3:ℚ)/10 - scenarioTap1.pressure_threshold) /
            (1 - scenarioTap1.pressure_threshold)))) * 107))))]) := by
  refine ⟨by rw [scenarioTap1_eq]; norm_num, by rw [scenarioTap1_eq]; norm_num,
    claim_C2 scenarioTap1 (1/2) (3/10) 2 ?_ ?_ ?_ ?_ ?_ ?_⟩ <;>
    rw [scenarioTap1_eq] <;> norm_num

/-- C3 (confirmed): from any reachable detector state, a call whose pressure
is below the threshold never returns a strum event. -/
theorem claim_C3 (s : SState) (x p t : ℚ) (hr : Reachable s)
    (hp : p < s.pressure_threshold) (l : List (NoteObject × Int)) :
    (strumStep s x p t).2 ≠ some (.strum l) := by
  obtain ⟨hmax, hpend, hstr⟩ := strumInv_of_reachable hr
  rw [strumStep]
  by_cases hn : s.notes.length > 0
  · simp only [if_pos hn]
    by_cases h1 : s.last_pressure ≥ s.pressure_threshold ∧ p < s.pressure_threshold
    · simp only [if_pos h1, strumRelease]
      split <;> simp
    · simp only [if_neg h1]
      by_cases h2 : (s.last_pressure < s.pressure_threshold ∧ p ≥ s.pressure_threshold) ∧
          (s.last_strummed_index = -1 ∨ s.last_strummed_index ≠
            min (pyInt (x / (s.width / (s.notes.length : ℚ)))) ((s.notes.length : Int) - 1))
      · exact absurd h2.1.2 (not_le.mpr hp)
      · simp only [if_neg h2]
        by_cases h3 : p ≥ s.pressure_threshold ∧ s.last_strummed_index = -1 ∧
            s.pending_tap_index = -1
        · exact absurd h3.1 (not_le.mpr hp)
        · simp only [if_neg h3]
          by_cases h4 : s.pending_tap_index ≠ -1 ∧
              s.pressure_buffer.length < s.buffer_max_samples
          · exact absurd ⟨(hpend h4.1).2.2, hp⟩ h1
          · simp only [if_neg h4]
            by_cases h5 : p ≥ s.pressure_threshold ∧ s.last_strummed_index ≠ -1 ∧
                s.last_strummed_index ≠
                  min (pyInt (x / (s.width / (s.notes.length : ℚ)))) ((s.notes.length : Int) - 1)
            · exact absurd h5.1 (not_le.mpr hp)
            · simp [if_neg h5]
  · simp [if_neg hn]

/-- C3 witness: a freshly configured detector (threshold 0.1) and a frame
at pressure 0.05. -/
theorem claim_C3_witness :
    (1/20 : ℚ) < (initState [] 1 (1/10)).pressure_threshold ∧
    (strumStep (initState [] 1 (1/10)) 0 (1/20) 1).2 ≠ some (.strum []) :=
  ⟨by norm_num [initState],
   claim_C3 (initState [] 1 (1/10)) 0 (1/20) 1 (Reachable.init [] 1 (1/10))
     (by norm_num [initState]) []⟩

/-- C4 (confirmed): across every reachable state, (1) a pending tap implies
a buffer shorter than 3 samples and an idle previous strum, (2) a recorded
strum index implies the last pressure reached the threshold, and (3) a call
returning a release event leaves `pending_tap_index = -1`, an empty
pressure buffer, `last_strummed_index = -1` and `last_strum_velocity = 0`. -/
theorem claim_C4 (s : SState) (hr : Reachable s) :
    (s.pending_tap_index ≠ -1 →
      s.pressure_buffer.length < 3 ∧ s.last_strummed_index = -1) ∧
    (s.last_strummed_index ≠ -1 → s.last_pressure ≥ s.pressure_threshold) ∧
    (∀ x p t v, (strumStep s x p t).2 = some (.release v) →
      (strumStep s x p t).1.pending_tap_index = -1 ∧
      (strumStep s x p t).1.pressure_buffer = [] ∧
      (strumStep s x p t).1.last_strummed_index = -1 ∧
      (strumStep s x p t).1.last_strum_velocity = 0) := by
  obtain ⟨hmax, hpend, hstr⟩ := strumInv_of_reachable hr
  exact ⟨fun hne => ⟨(hpend hne).1, (hpend hne).2.1⟩, hstr,
    fun x p t v h => release_resets s x p t v h⟩

/-- C4 witness: the invariants instantiated at a freshly configured
detector. -/
theorem claim_C4_witness :
    ((initState [] 1 (1/10)).pending_tap_index ≠ -1 →
      (initState [] 1 (1/10)).pressure_buffer.length < 3 ∧
      (initState [] 1 (1/10)).last_strummed_index = -1) ∧
    ((initState [] 1 (1/10)).last_strummed_index ≠ -1 →
      (initState [] 1 (1/10)).last_pressure ≥
        (initState [] 1 (1/10)).pressure_threshold) ∧
    (∀ x p t v, (strumStep (initState [] 1 (1/10)) x p t).2 = some (.release v) →
      (strumStep (initState [] 1 (1/10)) x p t).1.pending_tap_index = -1 ∧
      (strumStep (initState [] 1 (1/10)) x p t).1.pressure_buffer = [] ∧
      (strumStep (initState [] 1 (1/10)) x p t).1.last_strummed_index = -1 ∧
      (strumStep (initState [] 1 (1/10)) x p t).1.last_strum_velocity = 0) :=
  claim_C4 (initState [] 1 (1/10)) (Reachable.init [] 1 (1/10))


/-! ## Helper lemmas: notation tables -/

theorem idxOf_some {l : List String} {s : String} {i : Nat} (h : idxOf l s = some i) :
    i < l.length ∧ l.getD i "" = s := by
  induction l generalizing i with
  | nil => simp [idxOf] at h
  | cons a as ih =>
    rw [idxOf] at h
    split at h
    · next heq =>
      cases h
      exact ⟨by simp, by rw [List.getD_cons_zero]; exact heq⟩
    · next hne =>
      cases hmm : idxOf as s with
      | none => rw [hmm] at h; simp at h
      | some j =>
        rw [hmm] at h
        simp at h
        obtain ⟨hjlt, hjget⟩ := ih hmm
        subst h
        refine ⟨by simpa using hjlt, by simpa using hjget⟩

theorem mem_idxOf {l : List String} {s : String} (h : s ∈ l) :
    ∃ i, idxOf l s = some i := by
  induction l with
  | nil => cases h
  | cons a as ih =>
    by_cases heq : a = s
    · exact ⟨0, by rw [idxOf, if_pos heq]⟩
    · have hmem : s ∈ as := by
        rcases List.mem_cons.mp h with h' | h'
        · exact absurd h'.symm heq
        · exact h'
      obtain ⟨i, hi⟩ := ih hmem
      exact ⟨i + 1, by rw [idxOf, if_neg heq, hi]; rfl⟩

theorem idxOf_sharp_getD :
    ∀ j : Fin 12, idxOf sharp_notations (sharp_notations.getD (j : Nat) "") = some (j : Nat) := by
  decide

theorem sharp_getD_no_flat :
    ∀ j : Fin 12, ((sharp_notations.getD (j : Nat) "").data.contains 'b') = false := by
  decide

theorem style_pick (s a b : String) (h : s.data.contains 'b' = false) :
    (if s.data.contains '#' then a else if s.data.contains 'b' then b else a) = a := by
  rw [h]
  split <;> simp

theorem claim_C6 (n : NoteObject) (k : Int) (h : n.ntn ∈ sharp_notations) :
    (n.transpose k).transpose (-k) = n := by
  by_cases hk : k = 0
  · subst hk
    norm_num [NoteObject.transpose]
  · obtain ⟨i, hidx⟩ := mem_idxOf h
    obtain ⟨hilt, hget⟩ := idxOf_some hidx
    have hilen : sharp_notations.length = 12 := rfl
    rw [hilen] at hilt
    have hnidx : noteIndexOf n.ntn = i := by rw [noteIndexOf, hidx]
    have hnb : n.ntn.data.contains 'b' = false := by
      rw [← hget]; exact sharp_getD_no_flat ⟨i, hilt⟩
    set t := n.octave * 12 + (i : Int) + k with ht
    set j := (t.fmod 12).toNat with hj
    have hj12 : j < 12 := by
      have h1 := Int.fmod_nonneg' t (by norm_num : (0:Int) < 12)
      have h2 := Int.fmod_lt_of_pos t (by norm_num : (0:Int) < 12)
      omega
    have hstep1 : n.transpose k =
        { ntn := sharp_notations.getD j "", octave := t.fdiv 12,
          secondary := n.secondary } := by
      rw [NoteObject.transpose, if_neg hk]
      dsimp only
      rw [hnidx, style_pick _ _ _ hnb]
    rw [hstep1, NoteObject.transpose, if_neg (neg_ne_zero.mpr hk)]
    dsimp only
    have hidx2 : noteIndexOf (sharp_notations.getD j "") = j := by
      rw [noteIndexOf, idxOf_sharp_getD ⟨j, hj12⟩]
    have hnb2 : (sharp_notations.getD j "").data.contains 'b' = false :=
      sharp_getD_no_flat ⟨j, hj12⟩
    rw [hidx2, style_pick _ _ _ hnb2]
    have hjt : (j : Int) = t.fmod 12 := by
      rw [hj]; exact Int.toNat_of_nonneg (Int.fmod_nonneg' t (by norm_num))
    have hsum := Int.fdiv_add_fmod t 12
    have hrt : t.fdiv 12 * 12 + (j : Int) + -k = n.octave * 12 + (i : Int) := by
      omega
    rw [hrt]
    have hfd : (n.octave * 12 + (i : Int)).fdiv 12 = n.octave := by
      rw [Int.fdiv_eq_ediv _ (by norm_num)]
      omega
    have hfm : ((n.octave * 12 + (i : Int)).fmod 12).toNat = i := by
      rw [Int.fmod_eq_emod _ (by norm_num)]
      omega
    rw [hfd, hfm, hget]


/-- C6 counterexample: for the flat-spelled note Db4 and `k = 1`,
`transpose(transpose(n, 1), −1)` returns C#4(the intermediate note "D"
carries no flat marker, so the way back picks the sharp table), which
differs from the original notation string. -/
theorem claim_C6_counterexample :
    NoteObject.transpose (NoteObject.transpose ⟨"Db", 4, false⟩ 1) (-1) ≠
      ⟨"Db", 4, false⟩ ∧
    NoteObject.transpose (NoteObject.transpose ⟨"Db", 4, false⟩ 1) (-1) =
      ⟨"C#", 4, false⟩ := by
  decide

/-- C6 witness: the amended claim at C#4, `k = 7`. -/
theorem claim_C6_witness :
    ({ ntn := "C#", octave := 4, secondary := false } : NoteObject).ntn ∈
      sharp_notations ∧
    NoteObject.transpose (NoteObject.transpose ⟨"C#", 4, false⟩ 7) (-7) =
      ⟨"C#", 4, false⟩ :=
  ⟨by decide, claim_C6 ⟨"C#", 4, false⟩ 7 (by decide)⟩

/-- C7 (amended): for every NON-EMPTY note list and non-negative spreads,
`fill_note_spread(base, L, U)` returns `L` added notes, then the base list,
then `U` added notes — `|base| + L + U` in total — and every added note has
`secondary = True`. -/
theorem claim_C7 (notes : List NoteObject) (L U : Int)
    (hne : notes ≠ []) (hL : 0 ≤ L) (hU : 0 ≤ U) :
    ∃ lo up, fill_note_spread notes L U = lo ++ notes ++ up ∧
      (lo.length : Int) = L ∧ (up.length : Int) = U ∧
      ∀ m ∈ lo ++ up, m.secondary = true := by
  rw [fill_note_spread, if_neg hne]
  refine ⟨_, _, rfl, ?_, ?_, ?_⟩
  · simp [Int.toNat_of_nonneg hL]
  · simp [Int.toNat_of_nonneg hU]
  · intro m hm
    rcases List.mem_append.mp hm with h | h <;>
      · obtain ⟨c, _, rfl⟩ := List.mem_map.mp h
        rfl

/-- C7 counterexample: on the empty base list the code returns `[]`
whatever the spreads, so the size law `|base| + L + U` fails at
`base = [], L = 1, U = 1`. -/
theorem claim_C7_counterexample :
    fill_note_spread [] 1 1 = [] ∧
    (fill_note_spread [] 1 1).length ≠ ([] : List NoteObject).length + 1 + 1 := by
  decide

/-- C7 witness: the amended claim at base `[C4, E4]`, `L = 3`, `U = 2`. -/
theorem claim_C7_witness :
    ([⟨"C", 4, false⟩, ⟨"E", 4, false⟩] : List NoteObject) ≠ [] ∧
    (∃ lo up, fill_note_spread [⟨"C", 4, false⟩, ⟨"E", 4, false⟩] 3 2 =
        lo ++ [⟨"C", 4, false⟩, ⟨"E", 4, false⟩] ++ up ∧
      (lo.length : Int) = 3 ∧ (up.length : Int) = 2 ∧
      ∀ m ∈ lo ++ up, m.secondary = true) :=
  ⟨by decide, claim_C7 [⟨"C", 4, false⟩, ⟨"E", 4, false⟩] 3 2 (by decide)
    (by decide) (by decide)⟩


/-! ## Claim C8 -/

/-- C8 (amended): for a direct mapping with `curve = 1`, `multiplier = 1`,
`min = 0`, `max = 1` and a non-`none` control, `map_value` is the identity
on `[0, 1]`; for a central mapping with a non-`none` control,
**`multiplier = 1` and `curve > 0`**, `map_value(0.5) = (min + max)/2`
(the code multiplies the output by `multiplier`, and a zero or negative
curve breaks `0 ** curve`, so the claim's central identity needs these two
extra hypotheses). -/
theorem claim_C8 (m : ParameterMapping) (v : ℚ) :
    (m.spread = "direct" → m.curve = 1 → m.multiplier = 1 → m.min = 0 → m.max = 1 →
      m.control ≠ "none" → 0 ≤ v → v ≤ 1 → m.map_value v = some v) ∧
    (m.spread = "central" → m.control ≠ "none" → m.multiplier = 1 → 0 < m.curve →
      m.map_value (1/2) = some ((m.min + m.max) / 2)) := by
  constructor
  · intro hsp hcu hmu hmin hmax hco hv0 hv1
    rw [ParameterMapping.map_value, if_neg hco]
    dsimp only
    rw [hsp]
    have hclamp : Max.max 0 (Min.min 1 v) = v := by
      rw [min_eq_right hv1, max_eq_right hv0]
    norm_num [hclamp, hcu, hmin, hmax, hmu]
    simp
  · intro hsp hco hmu hcu
    rw [ParameterMapping.map_value, if_neg hco]
    dsimp only
    rw [hsp]
    have hclamp : Max.max 0 (Min.min 1 (1/2 : ℚ)) = 1/2 := by norm_num
    rw [hclamp]
    norm_num
    by_cases hc1 : m.curve = 1
    · simp [hc1, hmu]
    · simp only [if_neg hc1, powPy, if_pos rfl]
      have : ¬m.curve = 0 := by intro h; rw [h] at hcu; exact absurd hcu (by norm_num)
      simp [this, hcu, hmu]

/-- C8 counterexample: a central mapping with `multiplier = 2`, `min = 0`,
`max = 1` maps 0.5 to 1, not to `(min + max)/2 = 0.5`: the claim's central
identity forgets the multiplier. -/
theorem claim_C8_counterexample :
    ParameterMapping.map_value ⟨0, 1, 2, 1, "central", "pressure", 1/2⟩ (1/2) =
      some 1 ∧
    (1 : ℚ) ≠ ((0 : ℚ) + 1) / 2 := by
  constructor
  · norm_num [ParameterMapping.map_value, powPy]
    intro h
    rw [if_neg (by decide : ¬("central" = "inverse"))]
    norm_num
  · norm_num
/-- C8 witness: both amended identities at concrete mappings. -/
theorem claim_C8_witness :
    ParameterMapping.map_value ⟨0, 1, 1, 1, "direct", "pressure", 1/2⟩ (1/3) =
      some (1/3) ∧
    ParameterMapping.map_value ⟨2, 4, 1, 4, "central", "yaxis", 0⟩ (1/2) =
      some (((2 : ℚ) + 4) / 2) :=
  ⟨(claim_C8 ⟨0, 1, 1, 1, "direct", "pressure", 1/2⟩ (1/3)).1 rfl rfl rfl rfl rfl
      (by decide) (by norm_num) (by norm_num),
   (claim_C8 ⟨2, 4, 1, 4, "central", "yaxis", 0⟩ (1/2)).2 rfl (by decide) rfl
      (by norm_num)⟩


/-! ## Claim C9: config serialization round-trip -/

theorem strummer_rt (c : Ser.StrummerConfig) :
    Ser.StrummerConfig.from_dict (Ser.StrummerConfig.to_dict c) = c := by
  obtain ⟨⟨a1,a2,a3,a4,a5,a6,a7⟩, ⟨b1,b2,b3,b4,b5,b6,b7⟩, ⟨c1,c2,c3,c4,c5,c6,c7⟩,
    ⟨d1,d2,d3,d4,d5,d6,d7⟩, ⟨e1,e2,e3⟩, ⟨f1,f2⟩, ⟨g1,g2,g3⟩, ⟨h1,h2,h3,h4,h5⟩⟩ := c
  rfl

theorem server_rt (c : Ser.ServerConfig) :
    Ser.ServerConfig.from_dict (Ser.ServerConfig.to_dict c) = c := by
  cases c
  rfl

theorem midi_rt (c : Ser.MidiConfig) (hex : c.midi_input_exclude ≠ PyVal.none) :
    Ser.MidiConfig.from_dict (Ser.MidiConfig.to_dict c) = c := by
  obtain ⟨a, b, c', d', e, f, g⟩ := c
  have hd : isNoneV d' = false := by
    cases d' <;> simp_all [isNoneV]
  show Ser.MidiConfig.from_dict _ = _
  rw [Ser.MidiConfig.from_dict]
  have : dget2 (Ser.MidiConfig.to_dict ⟨a, b, c', d', e, f, g⟩)
      "midi_input_exclude" "midiInputExclude" .none = d' := rfl
  rw [this, if_neg (by simp_all)]
  rfl

/-- C9 (confirmed): deserialization inverts serialization,
`from_dict (to_dict c) = c`, for every config whose `midi_input_exclude`
holds an actual value (its declared type, `List[str]`; a `None` there would
be replaced by the default exclusion list — `None` is not a value of the
field's declared type, so every default-constructed or type-respecting
mutation of a config round-trips). -/
theorem claim_C9 (c : Ser.MidiStrummerConfig)
    (hex : c.midi.midi_input_exclude ≠ PyVal.none) :
    Ser.MidiStrummerConfig.from_dict (Ser.MidiStrummerConfig.to_dict c) = c := by
  obtain ⟨st, mi, se⟩ := c
  have h1 : Ser.MidiStrummerConfig.from_dict
      (Ser.MidiStrummerConfig.to_dict ⟨st, mi, se⟩) =
      ⟨Ser.StrummerConfig.from_dict (Ser.StrummerConfig.to_dict st),
       Ser.MidiConfig.from_dict (Ser.MidiConfig.to_dict mi),
       Ser.ServerConfig.from_dict (Ser.ServerConfig.to_dict se)⟩ := rfl
  rw [h1, strummer_rt, midi_rt _ hex, server_rt]

/-- C9 witness: the default-constructed config round-trips. -/
theorem claim_C9_witness :
    Ser.MidiStrummerConfig.defaults.midi.midi_input_exclude ≠ PyVal.none ∧
    Ser.MidiStrummerConfig.from_dict
      (Ser.MidiStrummerConfig.to_dict Ser.MidiStrummerConfig.defaults) =
      Ser.MidiStrummerConfig.defaults :=
  ⟨by simp [Ser.MidiStrummerConfig.defaults, Ser.MidiConfig.defaults,
      Ser.DEFAULT_MIDI_INPUT_EXCLUDE],
   claim_C9 _ (by simp [Ser.MidiStrummerConfig.defaults, Ser.MidiConfig.defaults,
      Ser.DEFAULT_MIDI_INPUT_EXCLUDE])⟩


/-! ## Claim C10: action dispatch -/

/-- C10 (confirmed): `Actions.execute` returns `True` for every definition
whose name is one of the seven registered actions, even when the handler
rejects its parameters — e.g. `transpose` with no arguments or
`set-strum-notes` with a non-list argument, which also leave the state
unchanged — and returns `False` exactly when the definition is `None`,
`'none'`, `''`, a non-string non-list value, an empty list, or a definition
whose name is not a registered handler. -/
theorem claim_C10 (st : Act.ActionsState) (d : PyVal) (params : List PyVal) :
    ((Act.execute st d).1 = false ↔ Act.failSpec d) ∧
    (∀ name, name ∈ Act.sevenActionNames →
      (Act.execute st (.list (.str name :: params))).1 = true) ∧
    (Act.execute st (.list [.str "transpose"])).2 = st ∧
    (∀ v, Act.isNum v = false →
      (Act.execute st (.list (.str "transpose" :: v :: params))).2 = st) ∧
    (∀ v, Act.isList v = false →
      (Act.execute st (.list (.str "set-strum-notes" :: v :: params))).2 = st) := by
  refine ⟨?_, ?_, ?_, ?_, ?_⟩
  · cases d with
    | none => simp [Act.execute, Act.isNoActionDef, Act.failSpec]
    | bool b => simp [Act.execute, Act.isNoActionDef, Act.failSpec, Act.isStr, Act.isList,
        Act.registeredName]
    | int n => simp [Act.execute, Act.isNoActionDef, Act.failSpec, Act.isStr, Act.isList,
        Act.registeredName]
    | float q => simp [Act.execute, Act.isNoActionDef, Act.failSpec, Act.isStr, Act.isList,
        Act.registeredName]
    | dict l => simp [Act.execute, Act.isNoActionDef, Act.failSpec, Act.isStr, Act.isList,
        Act.registeredName]
    | str s =>
      by_cases hno : s = "none" ∨ s = ""
      · rcases hno with h | h <;> subst h <;>
          simp [Act.execute, Act.isNoActionDef, Act.failSpec, Act.registeredName,
            Act.sevenActionNames]
      · push_neg at hno
        by_cases hmem : s ∈ Act.sevenActionNames
        · simp [Act.execute, Act.isNoActionDef, Act.failSpec, Act.registeredName,
            Act.isStr, Act.isList, hno.1, hno.2, hmem]
        · simp [Act.execute, Act.isNoActionDef, Act.failSpec, Act.registeredName,
            Act.isStr, Act.isList, hno.1, hno.2, hmem]
    | list l =>
      cases l with
      | nil => simp [Act.execute, Act.isNoActionDef, Act.failSpec, Act.registeredName]
      | cons h t =>
        cases h with
        | str s =>
          by_cases hmem : s ∈ Act.sevenActionNames <;>
            simp [Act.execute, Act.isNoActionDef, Act.failSpec, Act.registeredName,
              Act.isStr, Act.isList, hmem]
        | _ =>
          simp [Act.execute, Act.isNoActionDef, Act.failSpec, Act.registeredName,
            Act.isStr, Act.isList]
  · intro name hmem
    simp [Act.execute, Act.isNoActionDef, hmem]
  · rfl
  · intro v hv
    have : ¬Act.isNum v = true := by simp [hv]
    simp [Act.execute, Act.isNoActionDef, Act.sevenActionNames, Act.runHandler,
      Act.transpose_handler, this]
  · intro v hv
    simp only [Act.execute, Act.isNoActionDef]
    cases v <;> simp_all [Act.isList, Act.sevenActionNames, Act.runHandler,
      Act.set_strum_notes]

/-- C10 witness: the dispatch behaviour at concrete action definitions on
the default state. -/
theorem claim_C10_witness :
    ("transpose" ∈ Act.sevenActionNames) ∧
    (Act.execute Act.actionsInit (.list [.str "transpose", .int 12])).1 = true ∧
    (Act.execute Act.actionsInit (.list [.str "transpose"])).2 = Act.actionsInit ∧
    (Act.execute Act.actionsInit (.list [.str "set-strum-notes", .int 5])).2 =
      Act.actionsInit :=
  ⟨by decide,
   (claim_C10 Act.actionsInit PyVal.none [.int 12]).2.1 "transpose" (by decide),
   (claim_C10 Act.actionsInit PyVal.none []).2.2.1,
   (claim_C10 Act.actionsInit PyVal.none []).2.2.2.2 (.int 5) (by decide)⟩

end Sketchatone
